import Mathlib

/-!
Verification development for `url_to_pdf_agent.py` (agentic-kms, agent1-Save_PDFs).

The program is shallowly embedded: pure string manipulation becomes pure Lean
functions on `List Char` / `String`; the effectful parts (file reads, the two
renderer calls, browser lifecycle, filesystem) are embedded as functions over an
explicit environment describing the outcome of each external call, returning the
computed value together with a list of observable events in the order they occur.
-/

namespace UrlToPdf

/-- Top-level modules imported by `url_to_pdf_agent.py` (its `import` block,
lines 7-19).  Note that `base64` is absent, although `base64.b64decode` is
referenced at line 118. -/
def moduleImports : List String :=
  ["os", "sys", "logging", "argparse", "pathlib", "typing",
   "requests", "selenium", "pdfkit"]

/-- Whether the name `base64` is bound at module scope.  It is not: the import
block does not import it, so evaluating `base64.b64decode` raises `NameError`. -/
def base64Imported : Bool := moduleImports.contains "base64"

/-- Python `str.replace(old, new)` semantics for a non-empty pattern
`o :: os`: a single left-to-right scan replacing every non-overlapping
occurrence by `new`.  `fuel` bounds the recursion; one unit of fuel is spent
per step and every step consumes at least one character, so fuel equal to the
length of the string is always enough. -/
def pyReplaceFuel (o : Char) (os new : List Char) : Nat → List Char → List Char
  | _, [] => []
  | 0, s => s
  | fuel+1, c :: rest =>
    if (o :: os).isPrefixOf (c :: rest) then
      new ++ pyReplaceFuel o os new fuel (rest.drop os.length)
    else
      c :: pyReplaceFuel o os new fuel rest

/-- Python `s.replace(String.mk (o :: os), String.mk new)` on `s`. -/
def pyReplace (o : Char) (os new s : List Char) : List Char :=
  pyReplaceFuel o os new s.length s

/-- Characters kept by the sanitizer's filter, line 61:
`c.isalnum() or c in '._-'`.  (Python's `isalnum` also accepts non-ASCII
alphanumeric characters; the claims under verification are insensitive to the
exact alphanumeric predicate.) -/
def allowedChar (c : Char) : Bool :=
  c.isAlphanum || c == '.' || c == '_' || c == '-'

/-- Line 59 of the source:
`filename = url.replace('https://', '').replace('http://', '')`. -/
def stripSchemeStep (s : List Char) : List Char :=
  pyReplace 'h' "ttp://".data [] (pyReplace 'h' "ttps://".data [] s)

/-- Line 60 of the source:
`filename = filename.replace('/', '_').replace('?', '_').replace('&', '_')`. -/
def sepStep (s : List Char) : List Char :=
  pyReplace '&' [] ['_'] (pyReplace '?' [] ['_'] (pyReplace '/' [] ['_'] s))

/-- `URLToPDFAgent.sanitize_filename` (lines 57-62): scheme removal, separator
replacement, character filter, truncation to 100 characters, `.pdf` suffix. -/
def sanitize_filename (url : String) : String :=
  let f1 := stripSchemeStep url.data
  let f2 := sepStep f1
  let f3 := f2.filter allowedChar
  ⟨f3.take 100 ++ ".pdf".data⟩

/-- Modelled from the spec's words for claim C1 (refinement target only): strip
a leading `https://` or `http://`, first match only, at most one occurrence
removed, leaving any interior occurrence untouched. -/
def stripSchemeSpec (s : List Char) : List Char :=
  if "https://".data.isPrefixOf s then s.drop 8
  else if "http://".data.isPrefixOf s then s.drop 7
  else s

/- Basic lemmas about `pyReplaceFuel` / `pyReplace`. -/

theorem pyReplaceFuel_nil (o : Char) (os new : List Char) (f : Nat) :
    pyReplaceFuel o os new f [] = [] := by
  cases f <;> rfl

theorem pyReplaceFuel_fuel_irrel (o : Char) (os new : List Char) :
    ∀ f1 f2 s, s.length ≤ f1 → s.length ≤ f2 →
      pyReplaceFuel o os new f1 s = pyReplaceFuel o os new f2 s := by
  intro f1
  induction f1 with
  | zero =>
    intro f2 s h1 _
    have hs : s = [] := List.eq_nil_of_length_eq_zero (Nat.le_zero.mp h1)
    subst hs
    simp [pyReplaceFuel_nil]
  | succ k ih =>
    intro f2 s h1 h2
    cases s with
    | nil => simp [pyReplaceFuel_nil]
    | cons c rest =>
      cases f2 with
      | zero => simp at h2
      | succ m =>
        simp only [pyReplaceFuel]
        by_cases hpre : (o :: os).isPrefixOf (c :: rest)
        · have hlen : (rest.drop os.length).length ≤ k := by
            have := List.length_drop os.length rest
            simp only [List.length_cons] at h1
            omega
          have hlen2 : (rest.drop os.length).length ≤ m := by
            have := List.length_drop os.length rest
            simp only [List.length_cons] at h2
            omega
          rw [if_pos hpre, if_pos hpre, ih m _ hlen hlen2]
        · have hlen : rest.length ≤ k := by
            simp only [List.length_cons] at h1; omega
          have hlen2 : rest.length ≤ m := by
            simp only [List.length_cons] at h2; omega
          rw [if_neg hpre, if_neg hpre, ih m _ hlen hlen2]

/-- A match at the head of the string is consumed whole and replaced. -/
theorem pyReplace_append (o : Char) (os new s : List Char) :
    pyReplace o os new ((o :: os) ++ s) = new ++ pyReplace o os new s := by
  have hpre : (o :: os).isPrefixOf (o :: (os ++ s)) = true := by
    rw [ List.isPrefixOf_iff_prefix]
    exact List.prefix_append (o :: os) s
  have hlen : ((o :: os) ++ s).length = os.length + s.length + 1 := by
    simp [List.length_append]
  show pyReplaceFuel o os new ((o :: os) ++ s).length ((o :: os) ++ s) = _
  rw [hlen]
  have hcons : (o :: os) ++ s = o :: (os ++ s) := rfl
  rw [hcons]
  simp only [pyReplaceFuel, hpre, if_true]
  rw [List.drop_left]
  congr 1
  exact pyReplaceFuel_fuel_irrel o os new _ _ s (by omega) (le_refl _)

/-- A head character that cannot start the pattern is kept unchanged. -/
theorem pyReplace_cons_ne (o : Char) (os new : List Char) (c : Char)
    (s : List Char) (h : c ≠ o) :
    pyReplace o os new (c :: s) = c :: pyReplace o os new s := by
  have hpre : (o :: os).isPrefixOf (c :: s) = false := by
    rw [Bool.eq_false_iff]
    intro hp
    rw [ List.isPrefixOf_iff_prefix] at hp
    rcases hp with ⟨t, ht⟩
    simp only [List.cons_append, List.cons.injEq] at ht
    exact h ht.1.symm
  show pyReplaceFuel o os new (c :: s).length (c :: s) = _
  simp only [List.length_cons, pyReplaceFuel, hpre, Bool.false_eq_true, if_false]
  rfl

/- Claim C1: the scheme-removal step of the filename deriver. -/

/-- Counterexample for claim C1: on the input `xhttps://y`, whose scheme
substring occurs only in the interior, line 59 removes it anyway (Python
`str.replace` removes every occurrence, not only a leading one), so the step
disagrees with a strip-leading-prefix-only rule and the full deriver yields
`xy.pdf`. -/
theorem stripScheme_interior_occurrence_cex :
    stripSchemeStep "xhttps://y".data ≠ stripSchemeSpec "xhttps://y".data ∧
    stripSchemeStep "xhttps://y".data = "xy".data ∧
    sanitize_filename "xhttps://y" = "xy.pdf" := by
  refine ⟨by decide, by decide, by decide⟩

/-- Claim C1 (amended): the scheme-removal step removes every left-to-right
non-overlapping occurrence of `https://` (then of `http://`) anywhere in the
string, not only a leading one: a leading occurrence is removed, and an
interior occurrence is removed as well. -/
theorem stripScheme_removes_all_occurrences (s : List Char) :
    stripSchemeStep ("https://".data ++ s) = stripSchemeStep s ∧
    stripSchemeStep ('x' :: 'y' :: ("https://".data ++ s))
      = 'x' :: 'y' :: stripSchemeStep s := by
  have h8 : "https://".data = 'h' :: "ttps://".data := rfl
  constructor
  · unfold stripSchemeStep
    rw [h8, pyReplace_append, List.nil_append]
  · unfold stripSchemeStep
    rw [h8,
        pyReplace_cons_ne 'h' _ _ 'x' _ (by decide),
        pyReplace_cons_ne 'h' _ _ 'y' _ (by decide),
        pyReplace_append, List.nil_append,
        pyReplace_cons_ne 'h' _ _ 'x' _ (by decide),
        pyReplace_cons_ne 'h' _ _ 'y' _ (by decide)]

/- Claim C5: shape of every sanitized filename. -/

/-- Claim C5: `sanitize_filename` is a total function (hence deterministic);
for every input string the output has length at most 104, ends in the four
characters `.pdf`, and every character before that suffix is alphanumeric or
one of `.`, `_`, `-`. -/
theorem sanitize_filename_shape (url : String) :
    (sanitize_filename url).data.length ≤ 104 ∧
    (sanitize_filename url).data.drop ((sanitize_filename url).data.length - 4)
      = ".pdf".data ∧
    (((sanitize_filename url).data.take
        ((sanitize_filename url).data.length - 4)).all allowedChar) = true := by
  have hdata : (sanitize_filename url).data
      = ((sepStep (stripSchemeStep url.data)).filter allowedChar).take 100
        ++ ".pdf".data := rfl
  set b := ((sepStep (stripSchemeStep url.data)).filter allowedChar).take 100
    with hb
  have hblen : b.length ≤ 100 := by
    rw [hb, List.length_take]
    exact min_le_left _ _
  have hlen : (sanitize_filename url).data.length = b.length + 4 := by
    rw [hdata, List.length_append]
    rfl
  have hsub : (b ++ ".pdf".data).length - 4 = b.length := by
    rw [List.length_append]
    rfl
  refine ⟨by rw [hlen]; omega, ?_, ?_⟩
  · rw [hdata, hsub, List.drop_left]
  · rw [hdata, hsub, List.take_left, List.all_eq_true]
    intro c hc
    have hmem : c ∈ (sepStep (stripSchemeStep url.data)).filter allowedChar :=
      List.take_subset _ _ hc
    exact List.of_mem_filter hmem

/- The effectful part of the program: collector, renderers, driver, entry
point.  Each operation is embedded as a function of an explicit environment
recording the outcome of every external call, and returns its value together
with the ordered list of observable events of that run. -/

/-- Python `str.strip()`: remove whitespace from both ends. -/
def pyStrip (s : String) : String :=
  ⟨((s.data.dropWhile Char.isWhitespace).reverse.dropWhile
      Char.isWhitespace).reverse⟩

/-- Python `s.startswith(pre)`. -/
def pyStartswith (pre s : String) : Bool :=
  pre.data.isPrefixOf s.data

/-- A URL-list file as the read loop of lines 44-51 observes it: the lines
successfully yielded by iterating the open file, and whether an exception
interrupts the read afterwards.  An `open` failure is `okLines = []`,
`thenError = true`; an error in mid-iteration leaves the already-yielded lines
in `okLines`. -/
structure UrlFile where
  okLines : List String
  thenError : Bool
deriving DecidableEq

/-- What `read_urls_from_file` computes and logs. -/
structure ReadResult where
  urls : List String
  warnings : List Nat
  errorLogged : Bool
  infoLogged : Bool
deriving DecidableEq

/-- The loop body of `read_urls_from_file` (lines 45-51), with 1-based line
numbering `n`: returns the accepted (stripped) URLs and the warned line
numbers, each in line order. -/
def collectLines : Nat → List String → List String × List Nat
  | _, [] => ([], [])
  | n, l :: rest =>
    let line := pyStrip l
    let rec_ := collectLines (n+1) rest
    if !line.data.isEmpty && !pyStartswith "#" line then
      if pyStartswith "http://" line || pyStartswith "https://" line then
        (line :: rec_.1, rec_.2)
      else
        (rec_.1, n :: rec_.2)
    else
      rec_

/-- `URLToPDFAgent.read_urls_from_file` (lines 40-55): accumulate URLs over
the lines read; the summary info log sits inside the `try`, so it is skipped
when an exception occurs, in which case an error is logged instead; in every
case the accumulated list (as it stands when the loop ends or breaks) is
returned. -/
def read_urls_from_file (f : UrlFile) : ReadResult :=
  { urls := (collectLines 1 f.okLines).1
    warnings := (collectLines 1 f.okLines).2
    errorLogged := f.thenError
    infoLogged := !f.thenError }

/-- Observable events of a run, in order of occurrence. -/
inductive Ev where
  | invalidWarn (n : Nat)
  | readInfo
  | readError
  | startLog
  | primaryCall
  | wkInfo
  | wkError
  | fallbackLog
  | fallbackCall
  | browserLaunch
  | browserQuit
  | navigate
  | waitBody
  | printToPDF
  | fileOpen
  | fileWrite
  | selInfo
  | selError
  | noUrlsWarn
  | summary (succ total : Nat)
  | fileLog
  | noTxtWarn
deriving DecidableEq

/-- Outcomes of the external calls made while rendering one URL. -/
structure RenderEnv where
  wkOk : Bool
  launchOk : Bool
  getOk : Bool
  bodyAppears : Bool
  printReturns : Bool
  openOk : Bool
deriving DecidableEq

/-- `URLToPDFAgent.create_pdf_with_wkhtmltopdf` (lines 64-86): one
`pdfkit.from_url` call; any exception is caught, logged, and reported as
`false`. -/
def create_pdf_with_wkhtmltopdf (env : RenderEnv) : Bool × List Ev :=
  if env.wkOk then (true, [.primaryCall, .wkInfo])
  else (false, [.primaryCall, .wkError])

/-- The body of the inner `try` of `create_pdf_with_selenium` (lines 101-121),
entered once the driver exists: `none` means an exception escaped the body.
The decode step `base64.b64decode(...)` raises `NameError` whenever it is
reached, because `base64` is never imported (the `open` has already happened
at that point, the write has not). -/
def seleniumCapture (env : RenderEnv) : Option Bool × List Ev :=
  if !env.getOk then (none, [.navigate])
  else if !env.bodyAppears then (none, [.navigate, .waitBody])
  else if !env.printReturns then (none, [.navigate, .waitBody, .printToPDF])
  else if !env.openOk then (none, [.navigate, .waitBody, .printToPDF])
  else if base64Imported then
    (some true,
     [.navigate, .waitBody, .printToPDF, .fileOpen, .fileWrite, .selInfo])
  else
    (none, [.navigate, .waitBody, .printToPDF, .fileOpen])

/-- `URLToPDFAgent.create_pdf_with_selenium` (lines 88-128): launch the
browser, run the capture body, `driver.quit()` in the `finally` on every exit
of the body, and catch any exception in the outer `try`, logging it and
returning `false`.  If the launch itself fails there is no driver to quit. -/
def create_pdf_with_selenium (env : RenderEnv) : Bool × List Ev :=
  if !env.launchOk then (false, [.fallbackCall, .selError])
  else
    match seleniumCapture env with
    | (some b, evs) =>
      (b, .fallbackCall :: .browserLaunch :: (evs ++ [.browserQuit]))
    | (none, evs) =>
      (false, .fallbackCall :: .browserLaunch :: (evs ++ [.browserQuit, .selError]))

/-- `URLToPDFAgent.process_url` (lines 130-142): derive the filename, try
wkhtmltopdf, and only on failure log the fallback notice and try Selenium. -/
def process_url (env : RenderEnv) (url : String) : Bool × List Ev :=
  let _filename := sanitize_filename url
  let r1 := create_pdf_with_wkhtmltopdf env
  if r1.1 then (true, .startLog :: r1.2)
  else
    let r2 := create_pdf_with_selenium env
    (r2.1, .startLog :: (r1.2 ++ .fallbackLog :: r2.2))

/-- The log lines emitted by `read_urls_from_file` itself, in order: per-line
warnings, then either the summary info line or the caught-error line. -/
def readEvents (r : ReadResult) : List Ev :=
  r.warnings.map Ev.invalidWarn
    ++ (if r.infoLogged then [Ev.readInfo] else [])
    ++ (if r.errorLogged then [Ev.readError] else [])

/-- `URLToPDFAgent.process_file` (lines 144-157): read the URLs, warn and
return if none, otherwise process each URL in order and log the success
count. -/
def process_file (f : UrlFile) (renv : String → RenderEnv) : List Ev :=
  let r := read_urls_from_file f
  if r.urls.isEmpty then readEvents r ++ [.noUrlsWarn]
  else
    readEvents r
      ++ r.urls.flatMap (fun u => (process_url (renv u) u).2)
      ++ [.summary (r.urls.countP (fun u => (process_url (renv u) u).1))
            r.urls.length]

/-- `URLToPDFAgent.process_directory` (lines 159-170): warn and return if the
directory holds no `.txt` files, otherwise process each in turn. -/
def process_directory (files : List UrlFile) (renv : String → RenderEnv) :
    List Ev :=
  if files.isEmpty then [.noTxtWarn]
  else files.flatMap (fun f => .fileLog :: process_file f renv)

/-- The modelled filesystem: the set of existing directories. -/
structure FS where
  dirs : List String
deriving DecidableEq

/-- `Path.mkdir(exist_ok=True)` on the modelled filesystem. -/
def mkdirExistOk (fs : FS) (d : String) : FS :=
  if d ∈ fs.dirs then fs else ⟨d :: fs.dirs⟩

/-- `URLToPDFAgent.__init__` (lines 23-27): create the output directory
(`exist_ok=True`) as part of constructing the agent. -/
def URLToPDFAgent_init (fs : FS) (output_dir : String) : FS :=
  mkdirExistOk fs output_dir

/-- The parsed command line, plus the world `main` runs against: whether the
input path is an existing file or directory, the contents behind it, the
output directory name, and the renderer outcomes per URL. -/
structure MainArgs where
  inputIsFile : Bool
  inputIsDir : Bool
  fileContents : UrlFile
  dirTxtFiles : List UrlFile
  output : String
  renv : String → RenderEnv

/-- `main` (lines 173-191): construct the agent (which creates the output
directory), then dispatch on whether the input path is an existing file, an
existing directory, or neither; only the last branch exits with status 1.
Result: final filesystem, exit status, events. -/
def main (a : MainArgs) (fs : FS) : FS × Nat × List Ev :=
  let fs1 := URLToPDFAgent_init fs a.output
  if a.inputIsFile then (fs1, 0, process_file a.fileContents a.renv)
  else if a.inputIsDir then (fs1, 0, process_directory a.dirTxtFiles a.renv)
  else (fs1, 1, [])

/- Claim C2: the fallback renderer's decode-and-write step. -/

/-- Claim C2 fails on the code: `base64` is never imported, so on a run where
the browser export returns a PDF payload the decode step raises `NameError`;
the exception is caught, nothing is written (the output file is opened but the
decoded bytes never reach it), and the function returns `false` instead of
`true`.  The browser is still quit. -/
theorem selenium_decode_namerror :
    base64Imported = false ∧
    (create_pdf_with_selenium
      { wkOk := false, launchOk := true, getOk := true, bodyAppears := true,
        printReturns := true, openOk := true }).1 = false ∧
    Ev.fileWrite ∉ (create_pdf_with_selenium
      { wkOk := false, launchOk := true, getOk := true, bodyAppears := true,
        printReturns := true, openOk := true }).2 ∧
    Ev.printToPDF ∈ (create_pdf_with_selenium
      { wkOk := false, launchOk := true, getOk := true, bodyAppears := true,
        printReturns := true, openOk := true }).2 := by
  decide

/- Claim C3: what the collector returns when reading fails. -/

/-- Counterexample for claim C3: when the error strikes after one valid URL
line was already read, `read_urls_from_file` logs the error but returns the
URLs accumulated so far (`return urls` sits after the `except` block), not an
empty sequence. -/
theorem read_urls_error_nonempty_cex :
    (read_urls_from_file
      { okLines := ["https://a.com"], thenError := true }).errorLogged = true ∧
    (read_urls_from_file
      { okLines := ["https://a.com"], thenError := true }).urls
      = ["https://a.com"] := by
  exact ⟨rfl, by decide⟩

/-- Claim C3 (amended): whenever reading the URL list file fails, the error is
caught and logged and the URLs accumulated before the error are returned: the
same list an error-free read of the same lines would produce, and the empty
sequence exactly when no line had been read (e.g. the file could not be
opened). -/
theorem read_urls_error_returns_accumulated (f : UrlFile)
    (h : f.thenError = true) :
    (read_urls_from_file f).errorLogged = true ∧
    (read_urls_from_file f).urls
      = (read_urls_from_file { okLines := f.okLines, thenError := false }).urls ∧
    (f.okLines = [] → (read_urls_from_file f).urls = []) := by
  refine ⟨by simp [read_urls_from_file, h], rfl, ?_⟩
  intro h0
  simp [read_urls_from_file, h0, collectLines]

/-- Witness for the amended claim C3 at a concrete file. -/
theorem read_urls_error_returns_accumulated_witness :
    (read_urls_from_file
      { okLines := ["https://a.com"], thenError := true }).errorLogged = true ∧
    (read_urls_from_file
      { okLines := ["https://a.com"], thenError := true }).urls
      = (read_urls_from_file
          { okLines := ["https://a.com"], thenError := false }).urls ∧
    ((["https://a.com"] : List String) = [] →
      (read_urls_from_file
        { okLines := ["https://a.com"], thenError := true }).urls = []) :=
  read_urls_error_returns_accumulated
    { okLines := ["https://a.com"], thenError := true } rfl

/- Claim C4: renderer selection in process_url. -/

/-- Claim C4: `process_url` succeeds exactly when the primary renderer
succeeds or, failing that, the fallback does; the primary is invoked exactly
once, and the fallback is invoked exactly once when the primary fails and
never when it succeeds. -/
theorem process_url_fallback_policy (env : RenderEnv) (url : String) :
    (process_url env url).1
      = (env.wkOk || (create_pdf_with_selenium env).1) ∧
    (process_url env url).2.count Ev.primaryCall = 1 ∧
    (process_url env url).2.count Ev.fallbackCall
      = (if env.wkOk then 0 else 1) := by
  rcases env with ⟨wk, lo, go, ba, pr, oo⟩
  simp only [process_url]
  cases wk <;> cases lo <;> cases go <;> cases ba <;> cases pr <;> cases oo <;>
    decide

/- Claim C6: browser teardown in the fallback renderer. -/

/-- Claim C6: on every run of `create_pdf_with_selenium` in which the browser
launch succeeds, the trace starts with the call marker followed by the launch,
and contains exactly one `driver.quit()`, occurring after the launch —
whatever exit path the body takes (success, timeout, decode failure, or any
other exception). -/
theorem selenium_quits_on_every_exit (env : RenderEnv)
    (h : env.launchOk = true) :
    (create_pdf_with_selenium env).2.take 2
      = [Ev.fallbackCall, Ev.browserLaunch] ∧
    (create_pdf_with_selenium env).2.count Ev.browserLaunch = 1 ∧
    (create_pdf_with_selenium env).2.count Ev.browserQuit = 1 ∧
    Ev.browserQuit ∈ (create_pdf_with_selenium env).2.drop 2 := by
  rcases env with ⟨wk, lo, go, ba, pr, oo⟩
  subst h
  cases wk <;> cases go <;> cases ba <;> cases pr <;> cases oo <;> decide

/-- Witness for claim C6 at a concrete environment (timeout exit path). -/
theorem selenium_quits_on_every_exit_witness :
    (create_pdf_with_selenium
      { wkOk := false, launchOk := true, getOk := true, bodyAppears := false,
        printReturns := false, openOk := true }).2.take 2
      = [Ev.fallbackCall, Ev.browserLaunch] ∧
    (create_pdf_with_selenium
      { wkOk := false, launchOk := true, getOk := true, bodyAppears := false,
        printReturns := false, openOk := true }).2.count Ev.browserLaunch = 1 ∧
    (create_pdf_with_selenium
      { wkOk := false, launchOk := true, getOk := true, bodyAppears := false,
        printReturns := false, openOk := true }).2.count Ev.browserQuit = 1 ∧
    Ev.browserQuit ∈ (create_pdf_with_selenium
      { wkOk := false, launchOk := true, getOk := true, bodyAppears := false,
        printReturns := false, openOk := true }).2.drop 2 :=
  selenium_quits_on_every_exit
    { wkOk := false, launchOk := true, getOk := true, bodyAppears := false,
      printReturns := false, openOk := true } rfl

/- Claim C9: process_file on a file with zero valid URLs. -/

/-- Every event logged by the read phase is a per-line warning, the read
summary, or the caught-error line — never a render event. -/
theorem readEvents_cases (r : ReadResult) (e : Ev) (h : e ∈ readEvents r) :
    (∃ n, e = Ev.invalidWarn n) ∨ e = Ev.readInfo ∨ e = Ev.readError := by
  unfold readEvents at h
  rcases List.mem_append.mp h with h1 | h1
  · rcases List.mem_append.mp h1 with h2 | h2
    · rcases List.mem_map.mp h2 with ⟨n, _, hn⟩
      exact Or.inl ⟨n, hn.symm⟩
    · rcases r.infoLogged with _ | _ <;> simp_all
  · rcases r.errorLogged with _ | _ <;> simp_all

/-- Claim C9: when the collector yields zero URLs for a file, `process_file`
performs no render attempt at all (the primary and fallback renderers are
never invoked) and logs the no-valid-URLs warning. -/
theorem process_file_zero_urls_no_render (f : UrlFile)
    (renv : String → RenderEnv) (h : (read_urls_from_file f).urls = []) :
    (process_file f renv).count Ev.primaryCall = 0 ∧
    (process_file f renv).count Ev.fallbackCall = 0 ∧
    Ev.noUrlsWarn ∈ process_file f renv := by
  simp only [process_file, h, List.isEmpty_nil, if_true]
  have hre : ∀ e : Ev, (∀ n, e ≠ Ev.invalidWarn n) → e ≠ Ev.readInfo →
      e ≠ Ev.readError → (readEvents (read_urls_from_file f)).count e = 0 := by
    intro e he1 he2 he3
    rw [List.count_eq_zero]
    intro hmem
    rcases readEvents_cases _ _ hmem with ⟨n, hn⟩ | hn | hn
    · exact he1 n hn
    · exact he2 hn
    · exact he3 hn
  refine ⟨?_, ?_, ?_⟩
  · rw [List.count_append, hre Ev.primaryCall (by intro n h; cases h)
        (by intro h; cases h) (by intro h; cases h)]
    decide
  · rw [List.count_append, hre Ev.fallbackCall (by intro n h; cases h)
        (by intro h; cases h) (by intro h; cases h)]
    decide
  · simp [List.mem_append]

/-- Witness for claim C9: a file holding only a comment line and a blank
line. -/
theorem process_file_zero_urls_no_render_witness :
    (process_file { okLines := ["# comment", "   "], thenError := false }
        (fun _ => { wkOk := true, launchOk := true, getOk := true,
                    bodyAppears := true, printReturns := true,
                    openOk := true })).count Ev.primaryCall = 0 ∧
    (process_file { okLines := ["# comment", "   "], thenError := false }
        (fun _ => { wkOk := true, launchOk := true, getOk := true,
                    bodyAppears := true, printReturns := true,
                    openOk := true })).count Ev.fallbackCall = 0 ∧
    Ev.noUrlsWarn ∈ process_file
        { okLines := ["# comment", "   "], thenError := false }
        (fun _ => { wkOk := true, launchOk := true, getOk := true,
                    bodyAppears := true, printReturns := true,
                    openOk := true }) :=
  process_file_zero_urls_no_render
    { okLines := ["# comment", "   "], thenError := false }
    (fun _ => { wkOk := true, launchOk := true, getOk := true,
                bodyAppears := true, printReturns := true, openOk := true })
    (by decide)

/- Claim C7: the exit status of the entry point. -/

/-- Claim C7: `main` exits with status 1 exactly when the input path is
neither an existing file nor an existing directory, and with status 0 in
every other case — whatever the file contents and the per-URL renderer
outcomes are. -/
theorem main_exit_status (a : MainArgs) (fs : FS) :
    (main a fs).2.1 = (if a.inputIsFile || a.inputIsDir then 0 else 1) := by
  rcases a with ⟨f, d, fc, dt, out, renv⟩
  cases f <;> cases d <;> simp [main]

/- Claim C10: the output directory is created before input validation. -/

theorem mkdirExistOk_mem (fs : FS) (d : String) :
    d ∈ (mkdirExistOk fs d).dirs := by
  unfold mkdirExistOk
  by_cases h : d ∈ fs.dirs
  · rw [if_pos h]; exact h
  · rw [if_neg h]; exact List.mem_cons_self d _

/-- Claim C10: on every invocation — including one whose input path is
invalid, which exits with status 1 — the filesystem after `main` is exactly
the one produced by the constructor's `mkdir(exist_ok=True)` of the output
directory, and that directory exists in it. -/
theorem main_creates_output_dir (a : MainArgs) (fs : FS) :
    (main a fs).1 = mkdirExistOk fs a.output ∧
    a.output ∈ (main a fs).1.dirs := by
  have h1 : (main a fs).1 = mkdirExistOk fs a.output := by
    rcases a with ⟨f, d, fc, dt, out, renv⟩
    cases f <;> cases d <;> simp [main, URLToPDFAgent_init]
  refine ⟨h1, ?_⟩
  rw [h1]
  exact mkdirExistOk_mem fs a.output

/- Claim C8: per-line discipline of the collector. -/

/-- A line is accepted when its stripped form starts with an accepted
scheme. -/
def lineAccepted (l : String) : Bool :=
  pyStartswith "http://" (pyStrip l) || pyStartswith "https://" (pyStrip l)

/-- A line is skipped silently when its stripped form is empty or starts with
a comment mark. -/
def lineSkipped (l : String) : Bool :=
  (pyStrip l).data.isEmpty || pyStartswith "#" (pyStrip l)

/-- A line draws a warning when it is neither skipped nor accepted. -/
def lineWarned (l : String) : Bool :=
  !lineSkipped l && !lineAccepted l

/-- An accepted line is never blank and never a comment. -/
theorem accepted_not_skipped (l : String) (h : lineAccepted l = true) :
    lineSkipped l = false := by
  unfold lineAccepted at h
  have hshape : ∃ z, (pyStrip l).data = 'h' :: z := by
    rcases (Bool.or_eq_true _ _).mp h with h1 | h1 <;>
    · unfold pyStartswith at h1
      rw [ List.isPrefixOf_iff_prefix] at h1
      rcases h1 with ⟨u, hu⟩
      exact ⟨_, by rw [← hu]; rfl⟩
  rcases hshape with ⟨z, hz⟩
  unfold lineSkipped pyStartswith
  rw [hz]
  simp [List.isPrefixOf]

/-- The collector loop, characterised: the URLs are the stripped accepted
lines in original order (duplicates kept), and the warnings carry exactly the
1-based numbers of the warned lines. -/
theorem collectLines_spec (ls : List String) : ∀ n : Nat,
    collectLines n ls
      = ((ls.filter lineAccepted).map pyStrip,
         ((ls.enumFrom n).filter (fun p => lineWarned p.2)).map Prod.fst) := by
  induction ls with
  | nil => intro n; rfl
  | cons l rest ih =>
    intro n
    have hcond : (!(pyStrip l).data.isEmpty && !pyStartswith "#" (pyStrip l))
        = !lineSkipped l := (Bool.not_or _ _).symm
    have hstep : collectLines n (l :: rest)
        = if !lineSkipped l then
            (if lineAccepted l then
              (pyStrip l :: (collectLines (n+1) rest).1,
               (collectLines (n+1) rest).2)
             else
              ((collectLines (n+1) rest).1, n :: (collectLines (n+1) rest).2))
          else collectLines (n+1) rest := by
      simp only [collectLines]
      rw [hcond]
      rfl
    have henum : (l :: rest).enumFrom n = (n, l) :: rest.enumFrom (n+1) := rfl
    rw [hstep, henum]
    by_cases hS : lineSkipped l
    · have hA : lineAccepted l = false := by
        cases haa : lineAccepted l
        · rfl
        · rw [accepted_not_skipped l haa] at hS; cases hS
      have hW : lineWarned l = false := by
        unfold lineWarned; rw [hS]; rfl
      rw [hS]
      simp only [Bool.not_true, Bool.false_eq_true, if_false]
      rw [ih (n+1)]
      simp [List.filter_cons, hA, hW]
    · have hS' : lineSkipped l = false := Bool.eq_false_iff.mpr hS
      rw [hS']
      simp only [Bool.not_false, if_true]
      by_cases hA : lineAccepted l
      · have hW : lineWarned l = false := by
          unfold lineWarned; rw [hA]; simp
        rw [hA]
        simp only [if_true]
        rw [ih (n+1)]
        simp [List.filter_cons, hA, hW]
      · have hA' : lineAccepted l = false := Bool.eq_false_iff.mpr hA
        have hW : lineWarned l = true := by
          unfold lineWarned; rw [hS', hA']; rfl
        rw [hA']
        simp only [Bool.false_eq_true, if_false]
        rw [ih (n+1)]
        simp [List.filter_cons, hA', hW]

/-- Claim C8: on an error-free read, every line is handled by the trichotomy
blank-or-comment (skipped silently), accepted-scheme (collected, stripped, in
original order with duplicates kept), otherwise warned under its 1-based line
number; and no error is logged. -/
theorem read_urls_line_discipline (ls : List String) :
    (read_urls_from_file { okLines := ls, thenError := false }).urls
      = (ls.filter lineAccepted).map pyStrip ∧
    (read_urls_from_file { okLines := ls, thenError := false }).warnings
      = ((ls.enumFrom 1).filter (fun p => lineWarned p.2)).map Prod.fst ∧
    (read_urls_from_file { okLines := ls, thenError := false }).errorLogged
      = false := by
  refine ⟨?_, ?_, rfl⟩
  · show (collectLines 1 ls).1 = _
    rw [collectLines_spec ls 1]
  · show (collectLines 1 ls).2 = _
    rw [collectLines_spec ls 1]
